import Mathlib

set_option maxRecDepth 4000

/-!
Shallow embedding of the OV5640 camera/autofocus driver in
`src/mycamera/__init__.py` (class `MyCameraBase`), together with proofs of
the specified properties.

Modelling conventions:
* The I2C bus is observed through a trace of `Event`s (register writes,
  register reads, sleeps, sensor reconfigurations).
* The values returned by successive bus reads are supplied by an oracle
  `io : Nat → Nat`; each operation threads a read counter `k`, so `io k`
  is the value returned by the k-th read performed on the bus.
* Machine bytes are `Nat`s; Python integers that may be negative are `Int`s.
* A Python exception is an `Except DriverError` error value; a raised
  exception produces no bus traffic beyond what was issued before it.
-/

/-- Pixel formats of `espcamera.PixelFormat` used by the driver. -/
inductive PixelFormat where
  | RGB565
  | JPEG
  deriving DecidableEq, Repr

/-- Frame-size constants of `espcamera.FrameSize` that appear in the table
`MyCameraBase.resolution_to_frame_size`. -/
inductive FrameSize where
  | R240X240
  | QVGA
  | VGA
  | SVGA
  | XGA
  | HD
  | SXGA
  | UXGA
  | FHD
  | QXGA
  | QHD
  | WQXGA
  | QSXGA
  deriving DecidableEq, Repr

/-- Effects observable on the camera: a single-register bus write
(`write_camera_register`), a single-register bus read
(`read_camera_register`), a sleep of the given number of milliseconds
(`time.sleep(ms / 1000)`), and a sensor pipeline reconfiguration
(`camera.reconfigure`). -/
inductive Event where
  | busWrite (reg val : Nat)
  | busRead (reg : Nat)
  | sleepMs (ms : Nat)
  | reconfigure (pf : PixelFormat) (fs : FrameSize)
  deriving DecidableEq, Repr

/-- Errors raised by the driver (Python `RuntimeError` / `AttributeError` /
`IndexError`). -/
inductive DriverError where
  | invalidResolution
  | invalidArgument
  | attributeError
  | indexError
  deriving DecidableEq, Repr

/-- Register `0x3022`: autofocus main command register. -/
def OV5640_CMD_MAIN : Nat := 0x3022
/-- Register `0x3023`: autofocus command acknowledge register. -/
def OV5640_CMD_ACK : Nat := 0x3023
/-- Register `0x3024`: autofocus parameter register 0. -/
def OV5640_CMD_PARA0 : Nat := 0x3024
/-- Register `0x3027`: autofocus parameter register 3. -/
def OV5640_CMD_PARA3 : Nat := 0x3027
/-- Register `0x3028`: autofocus parameter register 4. -/
def OV5640_CMD_PARA4 : Nat := 0x3028
/-- Opcode `0x03`: trigger single-shot autofocus. -/
def OV5640_CMD_TRIGGER_AUTOFOCUS : Nat := 0x03
/-- Opcode `0x08`: release focus. -/
def OV5640_CMD_RELEASE_FOCUS : Nat := 0x08
/-- Opcode `0x1A`: set VCM step. -/
def OV5640_CMD_AF_SET_VCM_STEP : Nat := 0x1A
/-- Delay sentinel address in register lists (`_REG_DLY = 0xFFFF`). -/
def REG_DLY : Nat := 0xFFFF

/-- The ack-polling loop inside `_send_autofocus_command`:
`for _ in range(100): if read(ACK) == 0: return True; sleep(0.01)`,
falling through to `return False`.  `k` is the current read-oracle index and
the `Nat` argument the remaining iterations (100 at the top level).
Returns (loop result, next oracle index, events of the loop). -/
def pollAck (io : Nat → Nat) : Nat → Nat → Bool × Nat × List Event
  | k, 0 => (false, k, [])
  | k, n + 1 =>
    if io k = 0 then (true, k + 1, [Event.busRead OV5640_CMD_ACK])
    else
      let r := pollAck io (k + 1) n
      (r.1, r.2.1, Event.busRead OV5640_CMD_ACK :: Event.sleepMs 10 :: r.2.2)

/-- `MyCameraBase._send_autofocus_command(command, msg)`: write `0x01` to the
acknowledge register, write the command opcode to the main command register,
then poll the acknowledge register up to 100 times. -/
def send_autofocus_command (io : Nat → Nat) (k : Nat) (command : Nat) :
    Bool × Nat × List Event :=
  ((pollAck io k 100).1, (pollAck io k 100).2.1,
    Event.busWrite OV5640_CMD_ACK 0x01 ::
    Event.busWrite OV5640_CMD_MAIN command :: (pollAck io k 100).2.2)

/-- Sequentially read `n` consecutive camera registers starting at `base`
(the list comprehension `[read_camera_register(PARA0 + i) for i in range(5)]`
instantiates this with `base = OV5640_CMD_PARA0`, `n = 5`). -/
def readRegs (io : Nat → Nat) : Nat → Nat → Nat → List Nat × Nat × List Event
  | k, _, 0 => ([], k, [])
  | k, base, n + 1 =>
    let r := readRegs io (k + 1) (base + 1) n
    (io k :: r.1, r.2.1, Event.busRead base :: r.2.2)

/-- `MyCameraBase.autofocus()`: release focus, then trigger single-shot
autofocus, each via the command handshake; if either handshake fails return
five zero scores (`[False] * 5`); otherwise read the five zone scores from
parameter registers `PARA0 .. PARA4`. -/
def autofocus (io : Nat → Nat) (k : Nat) : List Nat × Nat × List Event :=
  let r1 := send_autofocus_command io k OV5640_CMD_RELEASE_FOCUS
  if r1.1 = false then ([0, 0, 0, 0, 0], r1.2.1, r1.2.2)
  else
    let r2 := send_autofocus_command io r1.2.1 OV5640_CMD_TRIGGER_AUTOFOCUS
    if r2.1 = false then ([0, 0, 0, 0, 0], r2.2.1, r1.2.2 ++ r2.2.2)
    else
      let z := readRegs io r2.2.1 OV5640_CMD_PARA0 5
      (z.1, z.2.1, r1.2.2 ++ r2.2.2 ++ z.2.2)

/-- Number of bus reads in a trace. -/
def countReads : List Event → Nat
  | [] => 0
  | Event.busRead _ :: es => countReads es + 1
  | _ :: es => countReads es

/-- Total milliseconds slept in a trace. -/
def totalSleepMs : List Event → Nat
  | [] => 0
  | Event.sleepMs m :: es => m + totalSleepMs es
  | _ :: es => totalSleepMs es

/-- Events of `n` consecutive unsuccessful ack polls. -/
def stuckEvents : Nat → List Event
  | 0 => []
  | n + 1 => Event.busRead OV5640_CMD_ACK :: Event.sleepMs 10 :: stuckEvents n

lemma countReads_stuckEvents (n : Nat) : countReads (stuckEvents n) = n := by
  induction n with
  | zero => rfl
  | succ n ih => simp [stuckEvents, countReads, ih]

lemma totalSleepMs_stuckEvents (n : Nat) : totalSleepMs (stuckEvents n) = 10 * n := by
  induction n with
  | zero => rfl
  | succ n ih => simp [stuckEvents, totalSleepMs, ih]; ring

lemma busWrite_not_mem_stuckEvents (n r v : Nat) :
    Event.busWrite r v ∉ stuckEvents n := by
  induction n with
  | zero => simp [stuckEvents]
  | succ n ih => simp [stuckEvents, ih]

/-- If every value the ack register returns during the loop is nonzero, the
poll loop runs all `n` iterations and fails. -/
lemma pollAck_stuck (io : Nat → Nat) :
    ∀ n k, (∀ i, i < n → io (k + i) ≠ 0) →
      pollAck io k n = (false, k + n, stuckEvents n) := by
  intro n
  induction n with
  | zero => intro k _; simp [pollAck, stuckEvents]
  | succ n ih =>
    intro k h
    have h0 : io k ≠ 0 := by simpa using h 0 (Nat.succ_pos n)
    have ht : ∀ i, i < n → io (k + 1 + i) ≠ 0 := by
      intro i hi
      have := h (i + 1) (by omega)
      simpa [Nat.add_assoc, Nat.add_comm 1 i] using this
    have hk : k + 1 + n = k + (n + 1) := by omega
    simp only [pollAck, if_neg h0, ih (k + 1) ht, stuckEvents, hk]

/-- The poll loop succeeds exactly when some read within its budget
returns zero. -/
lemma pollAck_true_iff (io : Nat → Nat) :
    ∀ n k, (pollAck io k n).1 = true ↔ ∃ i, i < n ∧ io (k + i) = 0 := by
  intro n
  induction n with
  | zero =>
    intro k
    simp [pollAck]
  | succ n ih =>
    intro k
    by_cases h0 : io k = 0
    · simp only [pollAck, if_pos h0]
      constructor
      · intro _; exact ⟨0, Nat.succ_pos n, by simpa using h0⟩
      · intro _; trivial
    · simp only [pollAck, if_neg h0]
      rw [ih (k + 1)]
      constructor
      · rintro ⟨i, hi, hz⟩
        exact ⟨i + 1, by omega, by simpa [Nat.add_assoc, Nat.add_comm 1 i] using hz⟩
      · rintro ⟨i, hi, hz⟩
        cases i with
        | zero => exact absurd (by simpa using hz) h0
        | succ j =>
          exact ⟨j, by omega, by simpa [Nat.add_assoc, Nat.add_comm 1 j] using hz⟩

/-- The poll loop only reads and sleeps; it never writes a register. -/
lemma pollAck_no_writes (io : Nat → Nat) :
    ∀ n k r v, Event.busWrite r v ∉ (pollAck io k n).2.2 := by
  intro n
  induction n with
  | zero => intro k r v; simp [pollAck]
  | succ n ih =>
    intro k r v
    by_cases h0 : io k = 0
    · simp [pollAck, if_pos h0]
    · simp only [pollAck, if_neg h0]
      simp [ih (k + 1) r v]

/-- The poll loop performs at most `n` reads. -/
lemma pollAck_countReads_le (io : Nat → Nat) :
    ∀ n k, countReads (pollAck io k n).2.2 ≤ n := by
  intro n
  induction n with
  | zero => intro k; simp [pollAck, countReads]
  | succ n ih =>
    intro k
    by_cases h0 : io k = 0
    · simp [pollAck, if_pos h0, countReads]
    · simp only [pollAck, if_neg h0]
      have := ih (k + 1)
      simp only [countReads]
      omega

/-- Claim C5: `_send_autofocus_command` first writes `0x01` to the
acknowledge register, then the command opcode to the main command register;
it polls the acknowledge register at most 100 times, returns `true` exactly
when one of those 100 reads returns 0, and when the acknowledge register
stays nonzero for all 100 polls it returns `false` after exactly 100 polls
and 100 interleaved 10 ms sleeps (1000 ms of waiting), rather than throwing,
returning immediately, or looping forever. -/
theorem send_autofocus_command_spec (io : Nat → Nat) (k cmd : Nat) :
    (send_autofocus_command io k cmd).2.2.take 2 =
      [Event.busWrite OV5640_CMD_ACK 0x01, Event.busWrite OV5640_CMD_MAIN cmd] ∧
    ((send_autofocus_command io k cmd).1 = true ↔ ∃ i, i < 100 ∧ io (k + i) = 0) ∧
    countReads (send_autofocus_command io k cmd).2.2 ≤ 100 ∧
    ((∀ i, i < 100 → io (k + i) ≠ 0) →
      (send_autofocus_command io k cmd).1 = false ∧
      countReads (send_autofocus_command io k cmd).2.2 = 100 ∧
      totalSleepMs (send_autofocus_command io k cmd).2.2 = 1000) := by
  refine ⟨rfl, ?_, ?_, ?_⟩
  · simpa [send_autofocus_command] using pollAck_true_iff io 100 k
  · simp only [send_autofocus_command, countReads]
    exact pollAck_countReads_le io 100 k
  · intro h
    have hs := pollAck_stuck io 100 k h
    refine ⟨?_, ?_, ?_⟩
    · simp [send_autofocus_command, hs]
    · simp [send_autofocus_command, hs, countReads, countReads_stuckEvents]
    · simp [send_autofocus_command, hs, totalSleepMs, totalSleepMs_stuckEvents]

/-- Witness for C5 at a concrete stuck bus: every read returns 1, so the
handshake fails after exactly 100 polls and 1000 ms of sleeping, and the
trace begins with the ack-clear write and the command write. -/
theorem send_autofocus_command_spec_witness :
    (send_autofocus_command (fun _ => 1) 0 8).2.2.take 2 =
      [Event.busWrite OV5640_CMD_ACK 0x01, Event.busWrite OV5640_CMD_MAIN 8] ∧
    (send_autofocus_command (fun _ => 1) 0 8).1 = false ∧
    countReads (send_autofocus_command (fun _ => 1) 0 8).2.2 = 100 ∧
    totalSleepMs (send_autofocus_command (fun _ => 1) 0 8).2.2 = 1000 := by
  have h := send_autofocus_command_spec (fun _ => 1) 0 8
  have hstuck := h.2.2.2 (by intro i _; simp)
  exact ⟨h.1, hstuck.1, hstuck.2.1, hstuck.2.2⟩

/-- Claim C4: `autofocus()` issues ReleaseFocus and then TriggerSingleShot,
each via the command handshake.  If the release handshake fails it returns
all-zero zone scores with only the release handshake's bus traffic — in
particular the TriggerSingleShot opcode is never written (short-circuit).
If the trigger handshake fails it likewise returns all-zero scores.  On
success the five zone scores are the values read from the five consecutive
parameter registers `0x3024 .. 0x3028`. -/
theorem autofocus_spec (io : Nat → Nat) (k : Nat) :
    (∀ k1 es1,
      send_autofocus_command io k OV5640_CMD_RELEASE_FOCUS = (false, k1, es1) →
      autofocus io k = ([0, 0, 0, 0, 0], k1, es1) ∧
      Event.busWrite OV5640_CMD_MAIN OV5640_CMD_TRIGGER_AUTOFOCUS ∉ es1) ∧
    (∀ k1 es1 k2 es2,
      send_autofocus_command io k OV5640_CMD_RELEASE_FOCUS = (true, k1, es1) →
      send_autofocus_command io k1 OV5640_CMD_TRIGGER_AUTOFOCUS = (false, k2, es2) →
      autofocus io k = ([0, 0, 0, 0, 0], k2, es1 ++ es2)) ∧
    (∀ k1 es1 k2 es2,
      send_autofocus_command io k OV5640_CMD_RELEASE_FOCUS = (true, k1, es1) →
      send_autofocus_command io k1 OV5640_CMD_TRIGGER_AUTOFOCUS = (true, k2, es2) →
      autofocus io k =
        ([io k2, io (k2 + 1), io (k2 + 2), io (k2 + 3), io (k2 + 4)], k2 + 5,
          es1 ++ es2 ++
            [Event.busRead 0x3024, Event.busRead 0x3025, Event.busRead 0x3026,
             Event.busRead 0x3027, Event.busRead 0x3028])) := by
  refine ⟨?_, ?_, ?_⟩
  · intro k1 es1 h
    constructor
    · simp [autofocus, h]
    · have hes : es1 =
          Event.busWrite OV5640_CMD_ACK 0x01 ::
          Event.busWrite OV5640_CMD_MAIN OV5640_CMD_RELEASE_FOCUS ::
          (pollAck io k 100).2.2 := by
        have := congrArg (fun p => p.2.2) h
        simpa [send_autofocus_command] using this.symm
      rw [hes]
      simp only [List.mem_cons, not_or]
      refine ⟨by decide, by decide, pollAck_no_writes io 100 k _ _⟩
  · intro k1 es1 k2 es2 h1 h2
    simp [autofocus, h1, h2]
  · intro k1 es1 k2 es2 h1 h2
    simp only [autofocus, h1, h2]
    simp [readRegs, OV5640_CMD_PARA0]

/-- Witness for C4 at a concrete stuck bus: with every ack read returning 1
the release handshake fails, so `autofocus` returns all-zero scores and the
TriggerSingleShot opcode is never written. -/
theorem autofocus_spec_witness :
    (autofocus (fun _ => 1) 0).1 = [0, 0, 0, 0, 0] ∧
    Event.busWrite OV5640_CMD_MAIN OV5640_CMD_TRIGGER_AUTOFOCUS ∉
      (autofocus (fun _ => 1) 0).2.2 := by
  have h := (autofocus_spec (fun _ => 1) 0).1
    (send_autofocus_command (fun _ => 1) 0 OV5640_CMD_RELEASE_FOCUS).2.1
    (send_autofocus_command (fun _ => 1) 0 OV5640_CMD_RELEASE_FOCUS).2.2
    rfl
  constructor
  · rw [h.1]
  · rw [h.1]; exact h.2

/-- Setter of `MyCameraBase.autofocus_vcm_step`: raise
`RuntimeError("VCM step must be 0 to 255")` unless `0 <= step <= 255`
(before any bus traffic), else write `0x00` to parameter register 3, the
step to parameter register 4, then issue the SetVcmStep command via the
handshake, discarding the handshake's boolean result. -/
def autofocus_vcm_step_set (io : Nat → Nat) (k : Nat) (step : Int) :
    Except DriverError Unit × Nat × List Event :=
  if ¬(0 ≤ step ∧ step ≤ 255) then
    (Except.error DriverError.invalidArgument, k, [])
  else
    (Except.ok (),
      (send_autofocus_command io k OV5640_CMD_AF_SET_VCM_STEP).2.1,
      Event.busWrite OV5640_CMD_PARA3 0x00 ::
      Event.busWrite OV5640_CMD_PARA4 step.toNat ::
      (send_autofocus_command io k OV5640_CMD_AF_SET_VCM_STEP).2.2)

/-- Claim C6: setting the VCM step fails with the invalid-argument error for
every integer outside `[0, 255]`, with no bus traffic at all; for every value
inside `[0, 255]` the bus traffic is exactly the write of zero to parameter
register 3, then the write of the step to parameter register 4, then the
SetVcmStep command handshake (ack-clear write, command write, then polling,
which issues no further writes). -/
theorem autofocus_vcm_step_set_spec (io : Nat → Nat) (k : Nat) (step : Int) :
    (¬(0 ≤ step ∧ step ≤ 255) →
      autofocus_vcm_step_set io k step =
        (Except.error DriverError.invalidArgument, k, [])) ∧
    (0 ≤ step → step ≤ 255 →
      autofocus_vcm_step_set io k step =
        (Except.ok (),
          (send_autofocus_command io k OV5640_CMD_AF_SET_VCM_STEP).2.1,
          Event.busWrite OV5640_CMD_PARA3 0x00 ::
          Event.busWrite OV5640_CMD_PARA4 step.toNat ::
          Event.busWrite OV5640_CMD_ACK 0x01 ::
          Event.busWrite OV5640_CMD_MAIN OV5640_CMD_AF_SET_VCM_STEP ::
          (pollAck io k 100).2.2) ∧
      (∀ r v, Event.busWrite r v ∉ (pollAck io k 100).2.2)) := by
  constructor
  · intro h
    simp [autofocus_vcm_step_set, h]
  · intro h0 h1
    refine ⟨?_, fun r v => pollAck_no_writes io 100 k r v⟩
    simp [autofocus_vcm_step_set, h0, h1, send_autofocus_command]

/-- Witness for C6: step 300 is rejected with no bus traffic; step 5 on a
bus whose first ack read returns 0 produces exactly the two parameter
writes, the ack-clear write, the command write and a single ack read. -/
theorem autofocus_vcm_step_set_spec_witness :
    autofocus_vcm_step_set (fun _ => 0) 0 300 =
      (Except.error DriverError.invalidArgument, 0, []) ∧
    autofocus_vcm_step_set (fun _ => 0) 0 5 =
      (Except.ok (), 1,
        [Event.busWrite OV5640_CMD_PARA3 0x00,
         Event.busWrite OV5640_CMD_PARA4 5,
         Event.busWrite OV5640_CMD_ACK 0x01,
         Event.busWrite OV5640_CMD_MAIN OV5640_CMD_AF_SET_VCM_STEP,
         Event.busRead OV5640_CMD_ACK]) := by
  constructor
  · exact (autofocus_vcm_step_set_spec (fun _ => 0) 0 300).1 (by decide)
  · have h := ((autofocus_vcm_step_set_spec (fun _ => 0) 0 5).2
      (by decide) (by decide)).1
    rw [h]
    rfl

/-- Claim C10: for every in-range step, the VCM-step setter returns
normally (`ok`) even when the SetVcmStep handshake fails — the handshake's
boolean result is discarded and the caller gets no indication of failure —
and the two parameter-register writes are at the head of the trace, i.e.
already issued by the time the handshake failed. -/
theorem autofocus_vcm_step_set_discards_failure (io : Nat → Nat) (k : Nat)
    (step : Int) (h0 : 0 ≤ step) (h1 : step ≤ 255)
    (hfail : (send_autofocus_command io k OV5640_CMD_AF_SET_VCM_STEP).1 = false) :
    (autofocus_vcm_step_set io k step).1 = Except.ok () ∧
    (autofocus_vcm_step_set io k step).2.2.take 2 =
      [Event.busWrite OV5640_CMD_PARA3 0x00,
       Event.busWrite OV5640_CMD_PARA4 step.toNat] := by
  constructor
  · simp [autofocus_vcm_step_set, h0, h1]
  · simp [autofocus_vcm_step_set, h0, h1]

/-- Witness for C10: with every ack read returning 1 the SetVcmStep
handshake fails, yet setting step 7 returns `ok` and the two parameter
writes head the trace. -/
theorem autofocus_vcm_step_set_discards_failure_witness :
    (autofocus_vcm_step_set (fun _ => 1) 0 7).1 = Except.ok () ∧
    (autofocus_vcm_step_set (fun _ => 1) 0 7).2.2.take 2 =
      [Event.busWrite OV5640_CMD_PARA3 0x00,
       Event.busWrite OV5640_CMD_PARA4 (7 : Int).toNat] :=
  autofocus_vcm_step_set_discards_failure (fun _ => 1) 0 7
    (by decide) (by decide) rfl

/-- The tuple `MyCameraBase.resolutions` (13 uncommented entries). -/
def resolutions : List String :=
  ["240x240", "320x240", "640x480", "800x600", "1024x768", "1280x720",
   "1280x1024", "1600x1200", "1920x1080", "2048x1536", "2560x1440",
   "2560x1600", "2560x1920"]

/-- The tuple `MyCameraBase.resolution_to_frame_size`, parallel to
`resolutions`. -/
def resolution_to_frame_size : List FrameSize :=
  [FrameSize.R240X240, FrameSize.QVGA, FrameSize.VGA, FrameSize.SVGA,
   FrameSize.XGA, FrameSize.HD, FrameSize.SXGA, FrameSize.UXGA,
   FrameSize.FHD, FrameSize.QXGA, FrameSize.QHD, FrameSize.WQXGA,
   FrameSize.QSXGA]

/-- Driver-side mutable state relevant to resolution selection.
`MyCameraBase.__init__` sets only `_i2c`, `_camera_device` and `camera`;
neither it nor `init_camera` assigns `self._resolution`, so directly after
initialization the attribute is absent (`none` here); reading it then
raises `AttributeError`. -/
structure MyCameraState where
  _resolution : Option Nat
  deriving DecidableEq, Repr

/-- State right after `MyCamera()` construction plus `init_camera`
(including the autofocus firmware load): `_resolution` was never
assigned. -/
def initState : MyCameraState := { _resolution := none }

/-- Argument of the `resolution` setter: a name string or an integer
index. -/
inductive ResolutionSelector where
  | byName (s : String)
  | byIndex (i : Int)

/-- The index wraparound in the `resolution` setter:
`res = (res + len(self.resolutions)) % len(self.resolutions)`
(Python `%` on a positive modulus agrees with `Int.emod`). -/
def wrapIndex (i : Int) : Nat :=
  ((i + (resolutions.length : Int)) % (resolutions.length : Int)).toNat

/-- Setter of `MyCameraBase.resolution`: a string must be a member of
`resolutions` (else `RuntimeError("Invalid Resolution")`) and is replaced
by its index; an integer is wrapped modulo the table length and stored. -/
def resolution_set (st : MyCameraState) :
    ResolutionSelector → Except DriverError MyCameraState
  | ResolutionSelector.byName s =>
    if s ∈ resolutions then
      Except.ok { st with _resolution := some (wrapIndex (resolutions.indexOf s : Int)) }
    else Except.error DriverError.invalidResolution
  | ResolutionSelector.byIndex i =>
    Except.ok { st with _resolution := some (wrapIndex i) }

/-- `MyCameraBase.capture_into_jpeg`: reconfigure the sensor to
(JPEG pixel format, `resolution_to_frame_size[self._resolution]`), sleep
100 ms, then take one frame (`frame` is the frame the sensor returns, or
`none` when the grab fails, passed through unchanged).  Reading
`self._resolution` when it was never assigned raises `AttributeError`;
indexing the table out of range would raise `IndexError`. -/
def capture_into_jpeg (st : MyCameraState) (frame : Option (List Nat)) :
    Except DriverError (FrameSize × List Event × Option (List Nat)) :=
  match st._resolution with
  | none => Except.error DriverError.attributeError
  | some r =>
    if h : r < resolution_to_frame_size.length then
      Except.ok (resolution_to_frame_size.get ⟨r, h⟩,
        [Event.reconfigure PixelFormat.JPEG (resolution_to_frame_size.get ⟨r, h⟩),
         Event.sleepMs 100],
        frame)
    else Except.error DriverError.indexError

/-- Scenario harness: select a resolution starting from the
freshly-initialized state, then capture a JPEG. -/
def select_then_capture (sel : ResolutionSelector)
    (frame : Option (List Nat)) :
    Except DriverError (FrameSize × List Event × Option (List Nat)) :=
  match resolution_set initState sel with
  | Except.error e => Except.error e
  | Except.ok st => capture_into_jpeg st frame

/-- Claim C7: index-based resolution selection is total — for every integer,
including negative ones, the setter succeeds and the stored effective index
lies in `[0, table_size)`. -/
theorem resolution_set_index_total (st : MyCameraState) (i : Int) :
    resolution_set st (ResolutionSelector.byIndex i) =
      Except.ok { st with _resolution := some (wrapIndex i) } ∧
    wrapIndex i < resolutions.length := by
  refine ⟨rfl, ?_⟩
  have h13 : resolutions.length = 13 := rfl
  rw [h13]
  unfold wrapIndex
  rw [h13]
  omega

/-- Counterexample to claim C1 as stated: selecting by name `"800x600"`
then capturing configures frame size SVGA, but selecting by index 2 on the
default table stores index 2, whose entry is `"640x480"`, so the capture is
configured with frame size VGA, not SVGA — index 2 does not map to
`"800x600"`. -/
theorem resolution_index2_not_svga_counterexample :
    select_then_capture (ResolutionSelector.byName "800x600") (some [0]) =
      Except.ok (FrameSize.SVGA,
        [Event.reconfigure PixelFormat.JPEG FrameSize.SVGA, Event.sleepMs 100],
        some [0]) ∧
    select_then_capture (ResolutionSelector.byIndex 2) (some [0]) =
      Except.ok (FrameSize.VGA,
        [Event.reconfigure PixelFormat.JPEG FrameSize.VGA, Event.sleepMs 100],
        some [0]) ∧
    resolutions.get ⟨2, by decide⟩ = "640x480" ∧
    FrameSize.VGA ≠ FrameSize.SVGA :=
  ⟨rfl, rfl, rfl, by decide⟩

/-- Claim C1 amended: `"800x600"` sits at index 3 of the canonical table
(not index 2), so after selecting the resolution by name `"800x600"` a JPEG
capture reconfigures the sensor with frame size SVGA, and selecting by
index 3 yields the very same state and the same SVGA frame size —
name-based and index-based selection agree for the entry `"800x600"`. -/
theorem resolution_800x600_name_index_agree :
    resolution_set initState (ResolutionSelector.byName "800x600") =
      resolution_set initState (ResolutionSelector.byIndex 3) ∧
    resolutions.indexOf "800x600" = 3 ∧
    select_then_capture (ResolutionSelector.byName "800x600") (some [0]) =
      Except.ok (FrameSize.SVGA,
        [Event.reconfigure PixelFormat.JPEG FrameSize.SVGA, Event.sleepMs 100],
        some [0]) ∧
    select_then_capture (ResolutionSelector.byIndex 3) (some [0]) =
      Except.ok (FrameSize.SVGA,
        [Event.reconfigure PixelFormat.JPEG FrameSize.SVGA, Event.sleepMs 100],
        some [0]) :=
  ⟨rfl, rfl, rfl, rfl⟩

/-- Counterexample to claim C2 as stated: right after construction plus
`init_camera` (which never assign `self._resolution`), `capture_into_jpeg`
does not succeed — it fails by reading the missing `_resolution` attribute
before any frame is taken, even though the sensor itself would deliver a
frame. -/
theorem capture_before_selection_counterexample :
    capture_into_jpeg initState (some [1, 2, 3]) =
      Except.error DriverError.attributeError :=
  rfl

lemma readRegs_fst_length (io : Nat → Nat) :
    ∀ n k base, (readRegs io k base n).1.length = n := by
  intro n
  induction n with
  | zero => intro k base; rfl
  | succ n ih =>
    intro k base
    simp [readRegs, ih (k + 1) (base + 1)]

/-- Claim C2 amended: `autofocus()` is callable at arbitrary times once
initialization has completed (it always returns a list of 5 zone scores),
but `capture_jpeg()` additionally requires that a resolution has been
selected at least once: before any selection it fails with the
missing-attribute error, while after any integer selection whatsoever it
proceeds to reconfigure and capture. -/
theorem capture_needs_resolution_selection (i : Int)
    (frame : Option (List Nat)) (io : Nat → Nat) (k : Nat) :
    (autofocus io k).1.length = 5 ∧
    capture_into_jpeg initState frame = Except.error DriverError.attributeError ∧
    (∃ st, resolution_set initState (ResolutionSelector.byIndex i) = Except.ok st ∧
      ∃ fs, capture_into_jpeg st frame =
        Except.ok (fs, [Event.reconfigure PixelFormat.JPEG fs, Event.sleepMs 100],
          frame)) := by
  refine ⟨?_, rfl, ?_⟩
  · by_cases h1 : (send_autofocus_command io k OV5640_CMD_RELEASE_FOCUS).1 = false
    · simp [autofocus, h1]
    · by_cases h2 : (send_autofocus_command io
          (send_autofocus_command io k OV5640_CMD_RELEASE_FOCUS).2.1
          OV5640_CMD_TRIGGER_AUTOFOCUS).1 = false
      · simp [autofocus, h1, h2]
      · simp [autofocus, h1, h2, readRegs_fst_length]
  · refine ⟨{ initState with _resolution := some (wrapIndex i) }, rfl, ?_⟩
    have hlt : wrapIndex i < resolution_to_frame_size.length := by
      have := (resolution_set_index_total initState i).2
      simpa [resolutions, resolution_to_frame_size] using this
    refine ⟨resolution_to_frame_size.get ⟨wrapIndex i, hlt⟩, ?_⟩
    simp [capture_into_jpeg, hlt]

/-- The firmware-chunking loop of `autofocus_init_from_bitstream`:
`for offset in range(0, len(firmware), 254)` transfers
`firmware[offset : offset + min(254, len(firmware) - offset)]` as one bus
transaction addressed at `0x8000 + offset`.  `chunksFrom off bs` is that
loop with remaining bytes `bs` at running offset `off`; it returns the
(address, payload) pairs in transfer order. -/
def chunksFrom : Nat → List Nat → List (Nat × List Nat)
  | _, [] => []
  | off, b :: rest =>
    (0x8000 + off, (b :: rest).take 254) ::
      chunksFrom (off + 254) ((b :: rest).drop 254)
termination_by _ bs => bs.length
decreasing_by simp [List.length_drop]; omega

/-- The chunks transferred for a whole firmware image (loop from offset
0). -/
def autofocus_init_chunks (firmware : List Nat) : List (Nat × List Nat) :=
  chunksFrom 0 firmware

lemma chunksFrom_length : ∀ off bs,
    (chunksFrom off bs).length = (bs.length + 253) / 254 := by
  intro off bs
  induction off, bs using chunksFrom.induct with
  | case1 off => simp [chunksFrom]
  | case2 off b rest ih =>
    rw [chunksFrom]
    simp only [List.length_cons, ih, List.length_drop]
    omega

lemma chunksFrom_flatten : ∀ off bs,
    ((chunksFrom off bs).map Prod.snd).flatten = bs := by
  intro off bs
  induction off, bs using chunksFrom.induct with
  | case1 off => simp [chunksFrom]
  | case2 off b rest ih =>
    rw [chunksFrom]
    simp only [List.map_cons, List.flatten_cons, ih]
    exact List.take_append_drop 254 (b :: rest)

lemma chunksFrom_addrs : ∀ off bs,
    (chunksFrom off bs).map Prod.fst =
      (List.range (chunksFrom off bs).length).map (fun j => 0x8000 + off + 254 * j) := by
  intro off bs
  induction off, bs using chunksFrom.induct with
  | case1 off => simp [chunksFrom]
  | case2 off b rest ih =>
    rw [chunksFrom]
    simp only [List.map_cons, List.length_cons, List.range_succ_eq_map, ih,
      List.map_map]
    refine congrArg₂ _ (by omega) ?_
    apply List.map_congr_left
    intro j _
    simp [Nat.succ_eq_add_one]
    omega

lemma getLast?_cons_of_ne_nil (a : α) {l : List α} (h : l ≠ []) :
    (a :: l).getLast? = l.getLast? := by
  cases l with
  | nil => exact absurd rfl h
  | cons c cs => exact List.getLast?_cons_cons

lemma chunksFrom_getLast? : ∀ off bs, bs ≠ [] →
    ∃ p, (chunksFrom off bs).getLast? = some p ∧
      p.2.length = if bs.length % 254 = 0 then 254 else bs.length % 254 := by
  intro off bs
  induction off, bs using chunksFrom.induct with
  | case1 off => intro h; exact absurd rfl h
  | case2 off b rest ih =>
    intro _
    rw [chunksFrom]
    rcases hdrop : (b :: rest).drop 254 with _ | ⟨c, cs⟩
    · refine ⟨(0x8000 + off, (b :: rest).take 254), ?_, ?_⟩
      · simp [chunksFrom]
      · have hlen : (b :: rest).length ≤ 254 := by
          rw [← List.drop_eq_nil_iff]
          exact hdrop
        have hpos : 1 ≤ (b :: rest).length := by simp
        simp only [List.length_take]
        have hmin : min 254 (b :: rest).length = (b :: rest).length := by omega
        rw [hmin]
        rcases Nat.lt_or_ge (b :: rest).length 254 with hc | hc
        · rw [if_neg (by omega)]
          omega
        · have h254 : (b :: rest).length = 254 := by omega
          rw [h254]
          simp
    · have hne : (b :: rest).drop 254 ≠ [] := by rw [hdrop]; simp
      obtain ⟨p, hp, hplen⟩ := ih hne
      have hchne : chunksFrom (off + 254) ((b :: rest).drop 254) ≠ [] := by
        rw [hdrop, chunksFrom]
        exact List.cons_ne_nil _ _
      rw [hdrop] at hp hchne
      refine ⟨p, ?_, ?_⟩
      · rw [getLast?_cons_of_ne_nil _ hchne]
        exact hp
      · have hgt : 254 < (b :: rest).length := by
          by_contra hle
          push_neg at hle
          exact hne (List.drop_eq_nil_of_le hle)
        have hmod : ((b :: rest).drop 254).length % 254 = (b :: rest).length % 254 := by
          simp only [List.length_drop]
          omega
        rw [hplen, hmod]

lemma chunksFrom_snd_lengths : ∀ off bs,
    (chunksFrom off bs).map (fun c => c.2.length) =
      (List.range (chunksFrom off bs).length).map
        (fun j => min 254 (bs.length - 254 * j)) := by
  intro off bs
  induction off, bs using chunksFrom.induct with
  | case1 off => simp [chunksFrom]
  | case2 off b rest ih =>
    rw [chunksFrom]
    simp only [List.map_cons, List.length_cons, List.range_succ_eq_map, ih,
      List.map_map, List.length_take, List.length_drop]
    refine congrArg₂ _ (by omega) ?_
    apply List.map_congr_left
    intro j _
    simp only [Function.comp_apply, Nat.succ_eq_add_one]
    omega

/-- Claim C3: the firmware upload partitions a firmware of length `L` into
exactly `ceil(L / 254)` chunks; concatenating the chunk payloads reproduces
the firmware exactly; chunk `k` is addressed at `0x8000 + 254 * k`; when
the firmware is nonempty the last chunk has `L mod 254` bytes (or 254 when
`L` is a multiple of 254); and a 600-byte firmware loads as 3 chunks of
254, 254 and 92 bytes at addresses `0x8000`, `0x80FE`, `0x81FC`. -/
theorem autofocus_init_chunks_spec (fw : List Nat) :
    (autofocus_init_chunks fw).length = (fw.length + 253) / 254 ∧
    ((autofocus_init_chunks fw).map Prod.snd).flatten = fw ∧
    (autofocus_init_chunks fw).map Prod.fst =
      (List.range (autofocus_init_chunks fw).length).map (fun j => 0x8000 + 254 * j) ∧
    (fw ≠ [] → ∃ p, (autofocus_init_chunks fw).getLast? = some p ∧
      p.2.length = if fw.length % 254 = 0 then 254 else fw.length % 254) ∧
    (autofocus_init_chunks (List.replicate 600 0)).map Prod.fst =
      [0x8000, 0x80FE, 0x81FC] ∧
    (autofocus_init_chunks (List.replicate 600 0)).map (fun c => c.2.length) =
      [254, 254, 92] := by
  have hlen600 : (autofocus_init_chunks (List.replicate 600 (0 : Nat))).length = 3 := by
    rw [autofocus_init_chunks, chunksFrom_length]
    simp
  refine ⟨chunksFrom_length 0 fw, chunksFrom_flatten 0 fw, ?_,
    chunksFrom_getLast? 0 fw, ?_, ?_⟩
  · have h := chunksFrom_addrs 0 fw
    simpa using h
  · have h := chunksFrom_addrs 0 (List.replicate 600 0)
    rw [autofocus_init_chunks, h]
    rw [← autofocus_init_chunks, hlen600]
    rfl
  · have h := chunksFrom_snd_lengths 0 (List.replicate 600 0)
    rw [autofocus_init_chunks, h]
    rw [← autofocus_init_chunks, hlen600]
    simp
    decide

/-- Witness for C3 at the 600-byte firmware of spec scenario A: 3 chunks,
round trip of the payloads, and the last chunk holds 92 bytes. -/
theorem autofocus_init_chunks_spec_witness :
    (autofocus_init_chunks (List.replicate 600 0)).length = 3 ∧
    ((autofocus_init_chunks (List.replicate 600 0)).map Prod.snd).flatten =
      List.replicate 600 0 ∧
    (∃ p, (autofocus_init_chunks (List.replicate 600 0)).getLast? = some p ∧
      p.2.length = if (List.replicate 600 (0 : Nat)).length % 254 = 0 then 254
        else (List.replicate 600 (0 : Nat)).length % 254) := by
  have h := autofocus_init_chunks_spec (List.replicate 600 0)
  refine ⟨?_, h.2.1, h.2.2.2.1 (by simp)⟩
  rw [h.1]
  simp

/-- A register file: the bus modeled as a map from address to the last
value written there (the read-back model of claim C8). -/
def regWrite (rf : Nat → Nat) (addr val : Nat) : Nat → Nat :=
  fun a => if a = addr then val else rf a

/-- The `camera.*_ctrl` auto-control flags touched by the exposure / gain /
white-balance setters. -/
structure AutoCtrl where
  exposure_ctrl : Bool
  gain_ctrl : Bool
  whitebal : Bool
  deriving DecidableEq, Repr

/-- Result of `get_camera_autosettings`. -/
structure AutoSettings where
  gain : Nat
  exposure : Nat
  wb : List Nat
  deriving DecidableEq, Repr

/-- `MyCameraBase.get_camera_autosettings`: pure register read-back; the
20-bit exposure is decoded as
`(read(0x3500) << 12) + (read(0x3501) << 4) + (read(0x3502) >> 4)`,
white balance as the six raw bytes `0x3400 .. 0x3405`, gain as
`read(0x350B)`. -/
def get_camera_autosettings (rf : Nat → Nat) : AutoSettings :=
  { gain := rf 0x350B
  , exposure := (rf 0x3500 <<< 12) + (rf 0x3501 <<< 4) + (rf 0x3502 >>> 4)
  , wb := [rf 0x3400, rf 0x3401, rf 0x3402, rf 0x3403, rf 0x3404, rf 0x3405] }

/-- `MyCameraBase.set_camera_exposure`: `None` switches auto exposure on;
a value disables auto exposure and writes
`(e >> 12) & 0xFF`, `(e >> 4) & 0xFF` and `(e << 4) & 0xFF` to registers
`0x3500`, `0x3501`, `0x3502`. -/
def set_camera_exposure (ctrl : AutoCtrl) (rf : Nat → Nat) :
    Option Nat → AutoCtrl × (Nat → Nat)
  | none => ({ ctrl with exposure_ctrl := true }, rf)
  | some new_exposure =>
    ({ ctrl with exposure_ctrl := false },
      regWrite (regWrite (regWrite rf
        0x3500 ((new_exposure >>> 12) &&& 0xFF))
        0x3501 ((new_exposure >>> 4) &&& 0xFF))
        0x3502 ((new_exposure <<< 4) &&& 0xFF))

/-- Claim C8: with the bus modeled as a register file where a read returns
the last written value, every exposure value in `[0, 2^20)` round-trips:
setting it and reading back via `get_camera_autosettings` yields the same
value — the getter decodes the same 3-register split the setter encodes. -/
theorem set_camera_exposure_roundtrip (ctrl : AutoCtrl) (rf : Nat → Nat)
    (e : Nat) (h : e < 2 ^ 20) :
    (get_camera_autosettings (set_camera_exposure ctrl rf (some e)).2).exposure
      = e := by
  simp only [get_camera_autosettings, set_camera_exposure, regWrite]
  norm_num
  have h255 : (255 : Nat) = 2 ^ 8 - 1 := rfl
  rw [h255, Nat.and_pow_two_sub_one_eq_mod, Nat.and_pow_two_sub_one_eq_mod,
    Nat.and_pow_two_sub_one_eq_mod, Nat.shiftLeft_eq, Nat.shiftLeft_eq,
    Nat.shiftLeft_eq, Nat.shiftRight_eq_div_pow, Nat.shiftRight_eq_div_pow]
  norm_num
  omega

/-- Witness for C8 at the concrete exposure value 987654 (< 2^20). -/
theorem set_camera_exposure_roundtrip_witness :
    (get_camera_autosettings
      (set_camera_exposure ⟨true, true, true⟩ (fun _ => 0) (some 987654)).2).exposure
      = 987654 :=
  set_camera_exposure_roundtrip ⟨true, true, true⟩ (fun _ => 0) 987654
    (by norm_num)

/-- `MyCameraBase.write_camera_list`: iterate the flat register list with
stride 2; a pair whose address is the delay sentinel `0xFFFF` sleeps for
`value` milliseconds (`time.sleep(value / 1000)`); any other pair is one
`write_camera_register` call.  A flat list of odd length raises
`IndexError` on `reg_list[i + 1]` (modeled as `none`). -/
def write_camera_list : List Nat → Option (List Event)
  | [] => some []
  | [_] => none
  | r :: v :: rest =>
    match write_camera_list rest with
    | none => none
    | some es =>
      some ((if r = REG_DLY then Event.sleepMs v else Event.busWrite r v) :: es)

/-- The per-pair semantics the spec describes: a sentinel pair is a sleep of
the paired value in milliseconds, any other pair a single-register bus
write, in program order. -/
def pairEvents (pairs : List (Nat × Nat)) : List Event :=
  pairs.map fun p => if p.1 = REG_DLY then Event.sleepMs p.2 else Event.busWrite p.1 p.2

/-- Flatten an (address, value) pair list into the flat register list the
driver consumes. -/
def flattenPairs (pairs : List (Nat × Nat)) : List Nat :=
  pairs.foldr (fun p acc => p.1 :: p.2 :: acc) []

/-- Claim C9: on every even-length register program (a list of
address/value pairs), `write_camera_list` produces exactly the per-pair
events in program order — each sentinel pair becomes a sleep of exactly the
paired value in milliseconds and each non-sentinel pair a single-register
bus write — and no bus write at the sentinel address is ever issued. -/
theorem write_camera_list_spec (pairs : List (Nat × Nat)) :
    write_camera_list (flattenPairs pairs) = some (pairEvents pairs) ∧
    ∀ v, Event.busWrite REG_DLY v ∉ pairEvents pairs := by
  constructor
  · induction pairs with
    | nil => rfl
    | cons p ps ih =>
      simp only [flattenPairs, List.foldr_cons, pairEvents, List.map_cons]
      simp only [flattenPairs, pairEvents] at ih
      rw [write_camera_list, ih]
  · intro v
    induction pairs with
    | nil => simp [pairEvents]
    | cons p ps ih =>
      simp only [pairEvents, List.map_cons, List.mem_cons, not_or] at ih ⊢
      refine ⟨?_, ih⟩
      by_cases hdly : p.1 = REG_DLY
      · simp [hdly]
      · simp [hdly]
        intro hr
        exact absurd hr.symm hdly
